import Mathlib

/-!
# Verification of `scripts/generate_docs.py` (ADIRO documentation batch runner)

This file gives a shallow embedding of the documentation batch runner in
`src/scripts/generate_docs.py` and proves the specification claims about it.

Modelling conventions:

* The output directory is modelled as an association list `FS` from filenames to
  file data; a write shadows any earlier entry for the same name, and a lookup
  returns the most recent write.  `mkdir(parents=True, exist_ok=True)` is the
  identity on this abstraction (it creates no files).
* File contents are modelled as `String`s (an exact byte sequence) together with
  a modification time, so that `shutil.copy2`'s "copy bytes and metadata"
  behaviour is expressible.
* The external pyLODE renderer (`OntPub(...).make_html`), `shutil.copy2` and
  `Path.write_text` are fallible: the environment `Env` records, per input file,
  whether each call succeeds or raises, and what content the opaque renderer
  produces.  This mirrors the script's `try`/`except` structure: the two calls
  inside the per-file `try` block may raise (error taxonomy (b) of the spec),
  and the index write has no handler at all (taxonomy (c)).
* `Path.glob("*.ttl")` is modelled as "filename ends with `.ttl`" (checked
  empirically: `pathlib` glob also matches dot-files), and `sorted` on paths in
  one directory is lexicographic comparison of the names.
* `sys.exit(1)` and falling off the end of `main` are modelled by the
  `exitCode` field of the run outcome; an uncaught exception (only possible in
  the index step) is modelled by `aborted := true` with the interpreter's exit
  code 1.
-/

namespace GenerateDocs

/-- A file's observable data: its exact content bytes (as a string) and its
modification time, the metadata that `shutil.copy2` preserves. -/
structure FileData where
  content : String
  mtime : Nat
deriving DecidableEq, Repr

/-- The output directory, as an association list from filename to file data.
A write conses a new binding, shadowing older ones; lookups see the newest. -/
abbrev FS := List (String × FileData)

/-- Write (create or overwrite) the file `n` with data `d`. -/
def fsWrite (fs : FS) (n : String) (d : FileData) : FS := (n, d) :: fs

/-- Look up the current data of the file named `n`, if it exists. -/
def fsGet (fs : FS) (n : String) : Option FileData :=
  (fs.find? (fun p => p.1 == n)).map Prod.snd

/-- An input file in the scanned source directory: its filename (no directory
component, since discovery is non-recursive in one fixed directory) and data. -/
structure InputFile where
  name : String
  data : FileData
deriving DecidableEq, Repr

/-- The opaque environment of a run: for each input filename, whether the
pyLODE render call succeeds and what it writes, whether the `shutil.copy2`
call succeeds, and whether the single `write_text` of the index succeeds
(with the mtime the filesystem stamps on the index file). -/
structure Env where
  renderOk : String → Bool
  rendered : String → FileData
  copyOk : String → Bool
  indexOk : Bool
  indexMtime : Nat

/-- Model of matching the glob pattern `*.ttl`: the filename ends in `.ttl`
(`pathlib.Path.glob` also matches names starting with a dot). -/
def matchesTtlGlob (n : String) : Bool :=
  ".ttl".data.isSuffixOf n.data

/-- The Python `pathlib.PurePath.stem` of a filename: the filename with its last suffix
removed, where the suffix is the part from the last `.` provided that dot is
neither the first nor the last character (so `.ttl` has no suffix and is its
own stem, and `a.b.ttl` has stem `a.b`). -/
def pyStem (n : String) : String :=
  match n.data.reverse.findIdx? (fun c => c == '.') with
  | none => n
  | some j =>
    let i := n.data.length - 1 - j
    if 0 < i ∧ i < n.data.length - 1 then ⟨n.data.take i⟩ else n

/-- Helper for `pyTitle`: the Boolean state is whether the previous character
was a (ASCII) letter. -/
def pyTitleAux : Bool → List Char → List Char
  | _, [] => []
  | prevCased, c :: rest =>
    if c.isAlpha then
      (if prevCased then c.toLower else c.toUpper) :: pyTitleAux true rest
    else
      c :: pyTitleAux false rest

/-- The Python `str.title()` function restricted to ASCII letters: a letter that follows
a non-letter is uppercased, every other letter is lowercased, non-letters are
kept.  Equivalently: each word (maximal run of letters) is capitalized. -/
def pyTitle (s : String) : String := ⟨pyTitleAux false s.data⟩

/-- The output HTML filename derived from an input filename:
`f"{ttl_file.stem}.html"` (source line 37/186). -/
def htmlArtifact (n : String) : String := pyStem n ++ ".html"

/-- The human-readable title derived for the index entry of an input file:
`ttl_file.stem.replace('_', ' ').title()` (source line 190). -/
def derivedTitle (n : String) : String :=
  pyTitle ⟨(pyStem n).data.map (fun c => if c == '_' then ' ' else c)⟩

/-- The ordering in which `sorted` lists the discovered paths: paths in one
and the same directory compare by their filename, lexicographically. -/
def nameLE (a b : InputFile) : Prop := a.name ≤ b.name

instance : DecidableRel nameLE :=
  fun a b => inferInstanceAs (Decidable (a.name ≤ b.name))

instance : IsTrans InputFile nameLE := ⟨fun _ _ _ h1 h2 => le_trans h1 h2⟩

instance : IsTotal InputFile nameLE := ⟨fun a b => le_total a.name b.name⟩

/-- Embedding of `find_ttl_files` (source lines 15-18): glob the directory listing for
`*.ttl` and return the matches sorted by name. -/
def find_ttl_files (listing : List InputFile) : List InputFile :=
  List.insertionSort nameLE (listing.filter (fun f => matchesTtlGlob f.name))

/-- The per-file outcome: the `try` block of `generate_documentation`
completes (returns `True`) exactly when both the render call and the copy
call succeed (so `success_count` counts it). -/
def fileOutcome (env : Env) (f : InputFile) : Bool :=
  env.renderOk f.name && env.copyOk f.name

/-- Embedding of `generate_documentation` (source lines 21-56): render the file to
`<stem>.html`; on success of the render, copy the input (bytes and metadata)
to its original name; any raise inside the `try` yields `False` with the
writes made so far kept; otherwise `True`.  The `mkdir` call is the
identity on the `FS` abstraction. -/
def generate_documentation (env : Env) (ttl_file : InputFile) (fs : FS) :
    FS × Bool :=
  let output_file := htmlArtifact ttl_file.name
  if env.renderOk ttl_file.name then
    let fs1 := fsWrite fs output_file (env.rendered ttl_file.name)
    if env.copyOk ttl_file.name then
      (fsWrite fs1 ttl_file.name ttl_file.data, true)
    else
      (fs1, false)
  else
    (fs, false)

/-- The per-file loop of `main` (source lines 252-255): process each file in
order, collecting the filesystem state and the list of per-file results. -/
def processAll (env : Env) (fs : FS) : List InputFile → FS × List Bool
  | [] => (fs, [])
  | f :: rest =>
    let step := generate_documentation env f fs
    let tail := processAll env step.1 rest
    (tail.1, step.2 :: tail.2)

/-- The fixed head of the index page template (source lines 69-183), up to the entry loop. -/
def indexHeader : String :=
  "<!DOCTYPE html>\n<html lang=\"en\">\n<head>\n    <meta charset=\"UTF-8\">\n    <meta name=\"viewport\" content=\"width=device-width, initial-scale=1.0\">\n    <title>ADIRO Ontology Documentation</title>\n    <style>\n        body \x7b\n            font-family: -apple-system, BlinkMacSystemFont, \x27Segoe UI\x27, Roboto, Oxygen, Ubuntu, Cantarell, sans-serif;\n            line-height: 1.6;\n            max-width: 800px;\n            margin: 0 auto;\n            padding: 2rem;\n            background-color: #f5f5f5;\n        \x7d\n        h1 \x7b\n            color: #333;\n            border-bottom: 3px solid #007acc;\n            padding-bottom: 0.5rem;\n        \x7d\n        .intro \x7b\n            background-color: white;\n            padding: 1.5rem;\n            border-radius: 8px;\n            margin-bottom: 2rem;\n            box-shadow: 0 2px 4px rgba(0,0,0,0.1);\n        \x7d\n        .ontology-list \x7b\n            list-style: none;\n            padding: 0;\n        \x7d\n        .ontology-list li \x7b\n            background-color: white;\n            margin-bottom: 1rem;\n            padding: 1rem;\n            border-radius: 8px;\n            box-shadow: 0 2px 4px rgba(0,0,0,0.1);\n            transition: transform 0.2s, box-shadow 0.2s;\n        \x7d\n        .ontology-list li:hover \x7b\n            transform: translateY(-2px);\n            box-shadow: 0 4px 8px rgba(0,0,0,0.15);\n        \x7d\n        .ontology-item \x7b\n            display: flex;\n            align-items: center;\n            justify-content: space-between;\n            gap: 1rem;\n        \x7d\n        .ontology-link-container \x7b\n            flex: 1;\n        \x7d\n        .ontology-list a \x7b\n            text-decoration: none;\n            color: #007acc;\n            font-weight: 500;\n            font-size: 1.1rem;\n        \x7d\n        .ontology-list a:hover \x7b\n            text-decoration: underline;\n        \x7d\n        .file-name \x7b\n            color: #666;\n            font-size: 0.9rem;\n            margin-top: 0.5rem;\n        \x7d\n        .ontocanvas-button \x7b\n            display: inline-flex;\n            align-items: center;\n            gap: 0.5rem;\n            padding: 0.5rem 1rem;\n            background-color: #007acc;\n            color: white;\n            text-decoration: none;\n            border-radius: 6px;\n            font-size: 0.9rem;\n            font-weight: 500;\n            transition: background-color 0.2s, transform 0.2s;\n            white-space: nowrap;\n        \x7d\n        .ontocanvas-button:hover \x7b\n            background-color: #005a9e;\n            transform: translateY(-1px);\n            text-decoration: none;\n            color: white;\n        \x7d\n        .ontocanvas-button:active \x7b\n            transform: translateY(0);\n        \x7d\n        .ontocanvas-icon \x7b\n            width: 20px;\n            height: 20px;\n            vertical-align: middle;\n        \x7d\n        footer \x7b\n            margin-top: 3rem;\n            padding-top: 2rem;\n            border-top: 1px solid #ddd;\n            text-align: center;\n            color: #666;\n            font-size: 0.9rem;\n        \x7d\n    </style>\n</head>\n<body>\n    <h1>ADIRO Ontology Documentation</h1>\n    \n    <div class=\"intro\">\n        <p>This site contains automatically generated HTML documentation for all ontology files in the ADIRO repository.</p>\n        <p>Documentation is generated using <a href=\"https://github.com/RDFLib/pyLODE\" target=\"_blank\">pyLODE</a> and updated automatically when changes are pushed to the repository.</p>\n    </div>\n    \n    <h2>Available Ontologies</h2>\n    <ul class=\"ontology-list\">\n"

/-- Literal fragment 1 of the per-file entry template (source lines 187-199). -/
def entryPart1 : String :=
  "        <li>\n            <div class=\"ontology-item\">\n                <div class=\"ontology-link-container\">\n                    <a href=\""

/-- Literal fragment 2 of the per-file entry template (source lines 187-199). -/
def entryPart2 : String :=
  "\">"

/-- Literal fragment 3 of the per-file entry template (source lines 187-199). -/
def entryPart3 : String :=
  "</a>\n                    <div class=\"file-name\">Source: "

/-- Literal fragment 4 of the per-file entry template (source lines 187-199). -/
def entryPart4 : String :=
  "</div>\n                </div>\n                <a href=\"#\" class=\"ontocanvas-button\" data-ontology=\""

/-- Literal fragment 5 of the per-file entry template (source lines 187-199). -/
def entryPart5 : String :=
  "\" target=\"_blank\">\n                    <img src=\"https://raw.githubusercontent.com/alelom/OntoCanvas/main/OntoCanvas.png\" alt=\"OntoCanvas\" class=\"ontocanvas-icon\">\n                    Open in OntoCanvas\n                </a>\n            </div>\n        </li>\n"

/-- The fixed tail of the index page template (source lines 201-223): closing list, footer, and the client-side OntoCanvas URL script. -/
def indexFooter : String :=
  "    </ul>\n    \n    <footer>\n        <p>Generated automatically by <a href=\"https://github.com/RDFLib/pyLODE\" target=\"_blank\">pyLODE</a></p>\n    </footer>\n    \n    <script>\n        // Set up OntoCanvas button links\n        document.addEventListener(\x27DOMContentLoaded\x27, function() \x7b\n            const buttons = document.querySelectorAll(\x27.ontocanvas-button\x27);\n            buttons.forEach(function(button) \x7b\n                const ontologyFile = button.getAttribute(\x27data-ontology\x27);\n                // Construct full URL to the ontology HTML file\n                const baseUrl = window.location.origin + window.location.pathname.replace(/\\/[^\\/]*$/, \x27\x27);\n                const ontologyUrl = baseUrl + \x27/\x27 + ontologyFile;\n                const ontocanvasUrl = \x27https://alelom.github.io/OntoCanvas/?onto=\x27 + encodeURIComponent(ontologyUrl);\n                button.setAttribute(\x27href\x27, ontocanvasUrl);\n            \x7d);\n        \x7d);\n    </script>\n</body>\n</html>\n"

/-- One list entry of the index page for the input filename `n` (source
lines 185-199): it links the derived HTML artifact, shows the derived title
and the source filename, and carries the OntoCanvas button whose target the
shipped client-side script fills in at page-view time. -/
def indexEntry (n : String) : String :=
  entryPart1 ++ htmlArtifact n ++ entryPart2 ++ derivedTitle n ++ entryPart3
    ++ n ++ entryPart4 ++ htmlArtifact n ++ entryPart5

/-- The complete text of the generated index page for the given (discovered)
filenames: the fixed header, one entry per filename, and the fixed footer. -/
def generate_index_content (names : List String) : String :=
  indexHeader ++ String.join (names.map indexEntry) ++ indexFooter

/-- Embedding of `generate_index` (source lines 59-226): write the index page to
`index.html` in the output directory; the `write_text` call may raise, which
no handler catches (`none`). -/
def generate_index (env : Env) (names : List String) (fs : FS) : Option FS :=
  if env.indexOk then
    some (fsWrite fs "index.html" ⟨generate_index_content names, env.indexMtime⟩)
  else
    none

/-- The observable outcome of one run of `main`: the final output directory,
the per-file results in processing order, the success counter, whether the
run died of an uncaught exception, and the process exit status. -/
structure RunOutcome where
  fs : FS
  results : List Bool
  success_count : Nat
  aborted : Bool
  exitCode : Nat
deriving DecidableEq, Repr

/-- Embedding of `main` (source lines 229-265): discover the `.ttl` files; exit 1 if there
are none; otherwise process each in order, then write the index (an uncaught
raise there aborts the run with the interpreter's exit status 1), and exit 1
if any file failed, else 0. -/
def main (env : Env) (listing : List InputFile) : RunOutcome :=
  let ttl_files := find_ttl_files listing
  if ttl_files.isEmpty then
    { fs := [], results := [], success_count := 0, aborted := false, exitCode := 1 }
  else
    let pr := processAll env [] ttl_files
    match generate_index env (ttl_files.map InputFile.name) pr.1 with
    | some fs2 =>
      { fs := fs2
        results := pr.2
        success_count := pr.2.count true
        aborted := false
        exitCode := if pr.2.count true < ttl_files.length then 1 else 0 }
    | none =>
      { fs := pr.1
        results := pr.2
        success_count := pr.2.count true
        aborted := true
        exitCode := 1 }

/-! ## Basic properties of the filesystem model -/

theorem fsGet_fsWrite_self (fs : FS) (n : String) (d : FileData) :
    fsGet (fsWrite fs n d) n = some d := by
  simp [fsGet, fsWrite]

theorem fsGet_fsWrite_ne (fs : FS) {n m : String} (d : FileData) (h : m ≠ n) :
    fsGet (fsWrite fs n d) m = fsGet fs m := by
  unfold fsGet fsWrite
  rw [List.find?_cons_of_neg]
  simp only [beq_iff_eq]
  exact fun hc => h hc.symm

theorem fsGet_fsWrite_isSome (fs : FS) {p : String} (n : String) (d : FileData)
    (h : fsGet fs p ≠ none) : fsGet (fsWrite fs n d) p ≠ none := by
  by_cases hp : p = n
  · subst hp; rw [fsGet_fsWrite_self]; simp
  · rw [fsGet_fsWrite_ne _ d hp]; exact h

/-! ## Filename facts: a derived `.html` path never collides with a `.ttl`
input filename -/

theorem append_html_ne_of_ttl_suffix (s t : String) (h : ".ttl".data <:+ t.data) :
    s ++ ".html" ≠ t := by
  intro he
  have h5 : ".html".data <:+ t.data := ⟨s.data, by rw [← he]; simp⟩
  rcases List.suffix_or_suffix_of_suffix h h5 with h' | h' <;> exact absurd h' (by decide)

theorem matchesTtlGlob_suffix {t : String} (h : matchesTtlGlob t = true) :
    ".ttl".data <:+ t.data := by
  simpa [matchesTtlGlob] using h

theorem htmlArtifact_ne_of_ttl (n : String) {t : String}
    (h : matchesTtlGlob t = true) : htmlArtifact n ≠ t :=
  append_html_ne_of_ttl_suffix (pyStem n) t (matchesTtlGlob_suffix h)

theorem index_html_ne_of_ttl {t : String} (h : matchesTtlGlob t = true) :
    "index.html" ≠ t := by
  have he : ("index" : String) ++ ".html" = "index.html" := by decide
  rw [← he]
  exact append_html_ne_of_ttl_suffix "index" t (matchesTtlGlob_suffix h)

/-! ## Properties of `generate_documentation` -/

theorem generate_documentation_snd (env : Env) (f : InputFile) (fs : FS) :
    (generate_documentation env f fs).2 = fileOutcome env f := by
  unfold generate_documentation fileOutcome
  cases hr : env.renderOk f.name <;> cases hc : env.copyOk f.name <;> simp [hr, hc]

theorem generate_documentation_fst (env : Env) (f : InputFile) (fs : FS) :
    (generate_documentation env f fs).1 =
      if env.renderOk f.name then
        (if env.copyOk f.name then
          fsWrite (fsWrite fs (htmlArtifact f.name) (env.rendered f.name)) f.name f.data
        else fsWrite fs (htmlArtifact f.name) (env.rendered f.name))
      else fs := by
  unfold generate_documentation
  cases env.renderOk f.name <;> cases env.copyOk f.name <;> simp

theorem generate_documentation_fsGet_other (env : Env) (f : InputFile) (fs : FS)
    {p : String} (h1 : p ≠ htmlArtifact f.name) (h2 : p ≠ f.name) :
    fsGet (generate_documentation env f fs).1 p = fsGet fs p := by
  rw [generate_documentation_fst]
  by_cases hr : env.renderOk f.name = true
  · by_cases hc : env.copyOk f.name = true
    · rw [if_pos hr, if_pos hc, fsGet_fsWrite_ne _ _ h2, fsGet_fsWrite_ne _ _ h1]
    · rw [if_pos hr, if_neg hc, fsGet_fsWrite_ne _ _ h1]
  · rw [if_neg hr]

theorem generate_documentation_isSome (env : Env) (f : InputFile) (fs : FS)
    {p : String} (h : fsGet fs p ≠ none) :
    fsGet (generate_documentation env f fs).1 p ≠ none := by
  rw [generate_documentation_fst]
  by_cases hr : env.renderOk f.name = true
  · by_cases hc : env.copyOk f.name = true
    · rw [if_pos hr, if_pos hc]
      exact fsGet_fsWrite_isSome _ _ _ (fsGet_fsWrite_isSome _ _ _ h)
    · rw [if_pos hr, if_neg hc]
      exact fsGet_fsWrite_isSome _ _ _ h
  · rw [if_neg hr]; exact h

theorem generate_documentation_fsGet_name (env : Env) (f : InputFile) (fs : FS)
    (hfs : fsGet fs f.name = none) (httl : matchesTtlGlob f.name = true) :
    fsGet (generate_documentation env f fs).1 f.name
      = if fileOutcome env f then some f.data else none := by
  rw [generate_documentation_fst]
  have hne : f.name ≠ htmlArtifact f.name := (htmlArtifact_ne_of_ttl _ httl).symm
  unfold fileOutcome
  by_cases hr : env.renderOk f.name = true
  · by_cases hc : env.copyOk f.name = true
    · rw [if_pos hr, if_pos hc, hr, hc, fsGet_fsWrite_self]
      simp
    · have hc' : env.copyOk f.name = false := by simpa using hc
      rw [if_pos hr, if_neg hc, hr, hc', fsGet_fsWrite_ne _ _ hne, hfs]
      simp
  · have hr' : env.renderOk f.name = false := by simpa using hr
    rw [if_neg hr, hr', hfs]
    simp

theorem generate_documentation_fsGet_html (env : Env) (f : InputFile) (fs : FS)
    (hr : env.renderOk f.name = true) :
    fsGet (generate_documentation env f fs).1 (htmlArtifact f.name) ≠ none := by
  rw [generate_documentation_fst, if_pos hr]
  by_cases hc : env.copyOk f.name = true
  · rw [if_pos hc]
    exact fsGet_fsWrite_isSome _ _ _ (by rw [fsGet_fsWrite_self]; simp)
  · rw [if_neg hc, fsGet_fsWrite_self]
    simp

/-! ## Properties of the per-file loop -/

theorem processAll_snd (env : Env) (fs : FS) (files : List InputFile) :
    (processAll env fs files).2 = files.map (fileOutcome env) := by
  induction files generalizing fs with
  | nil => rfl
  | cons f rest ih =>
    simp only [processAll, List.map_cons, generate_documentation_snd]
    rw [ih]

theorem processAll_fsGet_other (env : Env) (fs : FS) (files : List InputFile)
    {p : String} (h : ∀ f ∈ files, p ≠ htmlArtifact f.name ∧ p ≠ f.name) :
    fsGet (processAll env fs files).1 p = fsGet fs p := by
  induction files generalizing fs with
  | nil => rfl
  | cons f rest ih =>
    have hf := h f (List.mem_cons_self f rest)
    simp only [processAll]
    rw [ih _ (fun g hg => h g (List.mem_cons_of_mem f hg)),
      generate_documentation_fsGet_other env f fs hf.1 hf.2]

theorem processAll_isSome (env : Env) (fs : FS) (files : List InputFile)
    {p : String} (h : fsGet fs p ≠ none) :
    fsGet (processAll env fs files).1 p ≠ none := by
  induction files generalizing fs with
  | nil => exact h
  | cons f rest ih =>
    simp only [processAll]
    exact ih _ (generate_documentation_isSome env f fs h)

theorem processAll_fsGet_name (env : Env) (fs : FS) (files : List InputFile)
    {f : InputFile} (hmem : f ∈ files)
    (hnd : (files.map InputFile.name).Nodup)
    (httl : ∀ g ∈ files, matchesTtlGlob g.name = true)
    (hfs : fsGet fs f.name = none) :
    fsGet (processAll env fs files).1 f.name
      = if fileOutcome env f then some f.data else none := by
  induction files generalizing fs with
  | nil => cases hmem
  | cons g rest ih =>
    simp only [List.map_cons, List.nodup_cons] at hnd
    rcases List.mem_cons.mp hmem with rfl | hmem'
    · have hother : ∀ g' ∈ rest, f.name ≠ htmlArtifact g'.name ∧ f.name ≠ g'.name := by
        intro g' hg'
        constructor
        · exact (htmlArtifact_ne_of_ttl g'.name (httl f (List.mem_cons_self f rest))).symm
        · intro hc
          exact hnd.1 (by rw [hc]; exact List.mem_map_of_mem InputFile.name hg')
      simp only [processAll]
      rw [processAll_fsGet_other env _ rest hother,
        generate_documentation_fsGet_name env f fs hfs (httl f (List.mem_cons_self f rest))]
    · have httlf : matchesTtlGlob f.name = true := httl f hmem
      have hne1 : f.name ≠ htmlArtifact g.name := (htmlArtifact_ne_of_ttl g.name httlf).symm
      have hne2 : f.name ≠ g.name := by
        intro hc
        exact hnd.1 (by rw [← hc]; exact List.mem_map_of_mem InputFile.name hmem')
      simp only [processAll]
      have hfs' : fsGet (generate_documentation env g fs).1 f.name = none := by
        rw [generate_documentation_fsGet_other env g fs hne1 hne2]
        exact hfs
      exact ih _ hmem' hnd.2 (fun g' hg' => httl g' (List.mem_cons_of_mem g hg')) hfs'

theorem processAll_fsGet_html (env : Env) (fs : FS) (files : List InputFile)
    {f : InputFile} (hmem : f ∈ files) (hr : env.renderOk f.name = true) :
    fsGet (processAll env fs files).1 (htmlArtifact f.name) ≠ none := by
  induction files generalizing fs with
  | nil => cases hmem
  | cons g rest ih =>
    rcases List.mem_cons.mp hmem with rfl | hmem'
    · simp only [processAll]
      exact processAll_isSome env _ rest (generate_documentation_fsGet_html env f fs hr)
    · simp only [processAll]
      exact ih _ hmem'

/-! ## Properties of discovery -/

theorem find_ttl_files_perm (listing : List InputFile) :
    (find_ttl_files listing).Perm (listing.filter (fun f => matchesTtlGlob f.name)) :=
  List.perm_insertionSort nameLE _

theorem find_ttl_files_sorted (listing : List InputFile) :
    (find_ttl_files listing).Sorted nameLE :=
  List.sorted_insertionSort nameLE _

theorem find_ttl_files_matches (listing : List InputFile) {f : InputFile}
    (hmem : f ∈ find_ttl_files listing) : matchesTtlGlob f.name = true :=
  (List.mem_filter.mp ((find_ttl_files_perm listing).mem_iff.mp hmem)).2

theorem find_ttl_files_nodup (listing : List InputFile)
    (hnd : (listing.map InputFile.name).Nodup) :
    ((find_ttl_files listing).map InputFile.name).Nodup := by
  have h1 : ((listing.filter (fun f => matchesTtlGlob f.name)).map InputFile.name).Nodup :=
    List.Nodup.sublist ((List.filter_sublist listing).map InputFile.name) hnd
  exact (((find_ttl_files_perm listing).map InputFile.name).nodup_iff).mpr h1

/-! ## Properties of `main` -/

theorem main_of_empty (env : Env) (listing : List InputFile)
    (h : find_ttl_files listing = []) :
    main env listing =
      { fs := [], results := [], success_count := 0, aborted := false, exitCode := 1 } := by
  unfold main
  simp [h]

theorem main_eq_write (env : Env) (listing : List InputFile)
    (h : find_ttl_files listing ≠ []) (hidx : env.indexOk = true) :
    main env listing =
      { fs := fsWrite (processAll env [] (find_ttl_files listing)).1 "index.html"
          ⟨generate_index_content ((find_ttl_files listing).map InputFile.name), env.indexMtime⟩
        results := (processAll env [] (find_ttl_files listing)).2
        success_count := (processAll env [] (find_ttl_files listing)).2.count true
        aborted := false
        exitCode := if (processAll env [] (find_ttl_files listing)).2.count true
            < (find_ttl_files listing).length then 1 else 0 } := by
  unfold main generate_index
  simp [h, hidx]

theorem main_eq_abort (env : Env) (listing : List InputFile)
    (h : find_ttl_files listing ≠ []) (hidx : env.indexOk = false) :
    main env listing =
      { fs := (processAll env [] (find_ttl_files listing)).1
        results := (processAll env [] (find_ttl_files listing)).2
        success_count := (processAll env [] (find_ttl_files listing)).2.count true
        aborted := true
        exitCode := 1 } := by
  unfold main generate_index
  simp [h, hidx]

theorem main_results (env : Env) (listing : List InputFile) :
    (main env listing).results = (find_ttl_files listing).map (fileOutcome env) := by
  by_cases h : find_ttl_files listing = []
  · rw [main_of_empty env listing h, h]
    rfl
  · by_cases hidx : env.indexOk = true
    · rw [main_eq_write env listing h hidx]
      exact processAll_snd env [] _
    · rw [main_eq_abort env listing h (by simpa using hidx)]
      exact processAll_snd env [] _

theorem main_fsGet_ttl_name (env : Env) (listing : List InputFile)
    (hnd : (listing.map InputFile.name).Nodup) {f : InputFile}
    (hmem : f ∈ find_ttl_files listing) :
    fsGet (main env listing).fs f.name
      = if fileOutcome env f then some f.data else none := by
  have hne : find_ttl_files listing ≠ [] := List.ne_nil_of_mem hmem
  have hcore : fsGet (processAll env [] (find_ttl_files listing)).1 f.name
      = if fileOutcome env f then some f.data else none :=
    processAll_fsGet_name env [] _ hmem (find_ttl_files_nodup listing hnd)
      (fun g hg => find_ttl_files_matches listing hg) rfl
  by_cases hidx : env.indexOk = true
  · rw [main_eq_write env listing hne hidx]
    rw [fsGet_fsWrite_ne _ _
      (fun hc => index_html_ne_of_ttl (find_ttl_files_matches listing hmem) hc.symm)]
    exact hcore
  · rw [main_eq_abort env listing hne (by simpa using hidx)]
    exact hcore

theorem main_fsGet_html (env : Env) (listing : List InputFile) {f : InputFile}
    (hmem : f ∈ find_ttl_files listing) (hr : env.renderOk f.name = true) :
    fsGet (main env listing).fs (htmlArtifact f.name) ≠ none := by
  have hne : find_ttl_files listing ≠ [] := List.ne_nil_of_mem hmem
  have hcore := processAll_fsGet_html env [] _ hmem hr
  by_cases hidx : env.indexOk = true
  · rw [main_eq_write env listing hne hidx]
    exact fsGet_fsWrite_isSome _ _ _ hcore
  · rw [main_eq_abort env listing hne (by simpa using hidx)]
    exact hcore

theorem count_true_map_eq_length_iff (env : Env) (files : List InputFile) :
    (files.map (fileOutcome env)).count true = files.length
      ↔ ∀ f ∈ files, fileOutcome env f = true := by
  rw [show files.length = (files.map (fileOutcome env)).length by simp,
    List.count_eq_length]
  constructor
  · intro h f hf
    exact (h (fileOutcome env f) (List.mem_map_of_mem _ hf)).symm
  · intro h b hb
    obtain ⟨f, hf, rfl⟩ := List.mem_map.mp hb
    exact (h f hf).symm

/-! ## Concrete fixtures used by witnesses and counterexamples -/

/-- A concrete input file used by witnesses. -/
def fileA : InputFile := ⟨"a.ttl", ⟨"ontology alpha", 3⟩⟩

/-- A directory listing containing the single `.ttl` file `fileA`. -/
def listingA : List InputFile := [fileA]

/-- A concrete input file whose stem is `index`. -/
def fileIdx : InputFile := ⟨"index.ttl", ⟨"ontology index", 4⟩⟩

/-- A directory listing whose only `.ttl` file is `index.ttl`. -/
def listingIdx : List InputFile := [fileIdx]

/-- A directory listing with no `.ttl` file at all. -/
def listingNoTtl : List InputFile := [⟨"README.md", ⟨"readme", 1⟩⟩]

/-- An environment in which every external call succeeds. -/
def envAllOk : Env :=
  ⟨fun _ => true, fun _ => ⟨"<html>doc</html>", 5⟩, fun _ => true, true, 9⟩

/-- An environment in which every render succeeds but every copy raises. -/
def envCopyRaises : Env :=
  ⟨fun _ => true, fun _ => ⟨"<html>doc</html>", 5⟩, fun _ => false, true, 9⟩

/-- An environment in which per-file processing succeeds but the index write raises. -/
def envIndexRaises : Env :=
  ⟨fun _ => true, fun _ => ⟨"<html>doc</html>", 5⟩, fun _ => true, false, 9⟩

/-! ## The claims -/

/-- C1 counterexample: a run in which one input file is discovered and
processed successfully but the unprotected index write raises ends with exit
status 1, so the claimed equivalence "the exit status is zero iff at least one
input file was discovered and every discovered file was processed
successfully" is false: here its right-hand side holds and its left does not. -/
theorem claim1_counterexample :
    ¬ ((main envIndexRaises listingA).exitCode = 0 ↔
      (find_ttl_files listingA ≠ [] ∧
        ∀ r ∈ (main envIndexRaises listingA).results, r = true)) := by
  decide

/-- C1 (amended): the process exit status is zero iff at least one input file
was discovered, every discovered file was processed successfully, and the
index write did not raise; it is non-zero if zero files were found, if any
file failed to process, or if the index step aborted the run. -/
theorem claim1_exit_status_amended (env : Env) (listing : List InputFile) :
    (main env listing).exitCode = 0 ↔
      (find_ttl_files listing ≠ [] ∧
        (∀ f ∈ find_ttl_files listing, fileOutcome env f = true) ∧
        env.indexOk = true) := by
  by_cases h : find_ttl_files listing = []
  · rw [main_of_empty env listing h]
    simp [h]
  · by_cases hidx : env.indexOk = true
    · rw [main_eq_write env listing h hidx]
      show (if (processAll env [] (find_ttl_files listing)).2.count true
          < (find_ttl_files listing).length then 1 else 0) = 0 ↔ _
      rw [processAll_snd]
      have hle : ((find_ttl_files listing).map (fileOutcome env)).count true
          ≤ (find_ttl_files listing).length := by
        calc ((find_ttl_files listing).map (fileOutcome env)).count true
            ≤ ((find_ttl_files listing).map (fileOutcome env)).length :=
              List.count_le_length _ _
          _ = (find_ttl_files listing).length := by simp
      constructor
      · intro h0
        refine ⟨h, ?_, hidx⟩
        rw [← count_true_map_eq_length_iff]
        by_contra hne2
        rw [if_pos (lt_of_le_of_ne hle hne2)] at h0
        exact one_ne_zero h0
      · rintro ⟨-, hall, -⟩
        rw [if_neg (by rw [(count_true_map_eq_length_iff env _).mpr hall]; exact lt_irrefl _)]
    · rw [main_eq_abort env listing h (by simpa using hidx)]
      simp [hidx]

/-- C2 counterexample: when the render of `a.ttl` succeeds but the subsequent
copy raises, the file's processing result is recorded as a failure, yet its
rendered HTML artifact exists in the output directory — so the claim's "no
artifact of a file exists when its processing was recorded as a failure" is
false. -/
theorem claim2_counterexample :
    (main envCopyRaises listingA).results = [false] ∧
    fsGet (main envCopyRaises listingA).fs (htmlArtifact "a.ttl")
      = some (envCopyRaises.rendered "a.ttl") := by
  decide

/-- C2 (amended): for every discovered input file, the complete Output
Artifact Set (both the rendered HTML file and the copied input file) exists
in the output directory iff the file's Processing Result was a success; on a
failure the copied input never exists, but the rendered HTML alone may (when
the failure happened at the copy step after a successful render). -/
theorem claim2_artifact_set_amended (env : Env) (listing : List InputFile)
    (hnd : (listing.map InputFile.name).Nodup) {f : InputFile}
    (hmem : f ∈ find_ttl_files listing) :
    ((fsGet (main env listing).fs (htmlArtifact f.name) ≠ none ∧
      fsGet (main env listing).fs f.name ≠ none)
      ↔ fileOutcome env f = true) := by
  constructor
  · rintro ⟨-, hcopy⟩
    by_contra hout
    have hfalse : fileOutcome env f = false := by simpa using hout
    rw [main_fsGet_ttl_name env listing hnd hmem, hfalse] at hcopy
    simp at hcopy
  · intro hout
    have hr : env.renderOk f.name = true := by
      have h' := hout
      unfold fileOutcome at h'
      rw [Bool.and_eq_true] at h'
      exact h'.1
    refine ⟨main_fsGet_html env listing hmem hr, ?_⟩
    rw [main_fsGet_ttl_name env listing hnd hmem, hout]
    simp

/-- Witness for C2 (amended) at a concrete run: one input `a.ttl`, all calls
succeed. -/
theorem claim2_artifact_set_witness :
    ((fsGet (main envAllOk listingA).fs (htmlArtifact fileA.name) ≠ none ∧
      fsGet (main envAllOk listingA).fs fileA.name ≠ none)
      ↔ fileOutcome envAllOk fileA = true) :=
  claim2_artifact_set_amended envAllOk listingA (by decide) (by decide)

/-- C3: the per-file loop runs to completion for every file in list order:
the list of recorded results is exactly the listwise per-file outcome, whether
or not any individual file failed, and a per-file failure never escapes the
per-file boundary (the loop, and `main`, always record one result per
discovered file). -/
theorem claim3_no_early_abort (env : Env) (fs : FS) (files : List InputFile)
    (listing : List InputFile) :
    (processAll env fs files).2 = files.map (fileOutcome env) ∧
    (main env listing).results = (find_ttl_files listing).map (fileOutcome env) :=
  ⟨processAll_snd env fs files, main_results env listing⟩

/-- C4: for every successfully processed input file, the output directory
holds, under the original filename, a file with exactly the original content
bytes and the original modification time (the metadata `copy2` preserves). -/
theorem claim4_copy_preserved (env : Env) (listing : List InputFile)
    (hnd : (listing.map InputFile.name).Nodup) {f : InputFile}
    (hmem : f ∈ find_ttl_files listing) (hsucc : fileOutcome env f = true) :
    fsGet (main env listing).fs f.name
      = some ⟨f.data.content, f.data.mtime⟩ := by
  rw [main_fsGet_ttl_name env listing hnd hmem, hsucc]
  rfl

/-- Witness for C4 at a concrete run: one input `a.ttl`, all calls succeed. -/
theorem claim4_copy_preserved_witness :
    fsGet (main envAllOk listingA).fs fileA.name
      = some ⟨fileA.data.content, fileA.data.mtime⟩ :=
  claim4_copy_preserved envAllOk listingA (by decide) (by decide) (by decide)

/-- C5: in any run that writes the index, the generated index document is the
fixed header, then exactly one entry per discovered input file (whatever that
file's individual result was — the entry list depends only on the discovered
names), then the fixed footer; and each entry carries the derived title, the
stem with underscores replaced by spaces and each word capitalized
(`pyTitle`). -/
theorem claim5_index_entries (env : Env) (listing : List InputFile)
    (hne : find_ttl_files listing ≠ []) (hidx : env.indexOk = true) :
    fsGet (main env listing).fs "index.html"
      = some ⟨generate_index_content ((find_ttl_files listing).map InputFile.name),
          env.indexMtime⟩
    ∧ (((find_ttl_files listing).map InputFile.name).map indexEntry).length
        = (find_ttl_files listing).length
    ∧ ∀ n : String, indexEntry n
        = entryPart1 ++ htmlArtifact n ++ entryPart2 ++ derivedTitle n
          ++ entryPart3 ++ n ++ entryPart4 ++ htmlArtifact n ++ entryPart5 := by
  refine ⟨?_, by simp, fun n => rfl⟩
  rw [main_eq_write env listing hne hidx]
  exact fsGet_fsWrite_self _ _ _

/-- Witness for C5 at a concrete run: one input `a.ttl`, all calls succeed. -/
theorem claim5_index_entries_witness :
    fsGet (main envAllOk listingA).fs "index.html"
      = some ⟨generate_index_content ((find_ttl_files listingA).map InputFile.name),
          envAllOk.indexMtime⟩
    ∧ (((find_ttl_files listingA).map InputFile.name).map indexEntry).length
        = (find_ttl_files listingA).length
    ∧ ∀ n : String, indexEntry n
        = entryPart1 ++ htmlArtifact n ++ entryPart2 ++ derivedTitle n
          ++ entryPart3 ++ n ++ entryPart4 ++ htmlArtifact n ++ entryPart5 :=
  claim5_index_entries envAllOk listingA (by decide) rfl

/-- C6: discovery looks only at the immediate entries of the fixed source
directory (it is a function of that one directory listing), keeps exactly the
files matching the fixed `*.ttl` extension pattern, and returns them sorted by
filename (the lexicographic path order `nameLE`). -/
theorem claim6_discovery (listing : List InputFile) :
    (find_ttl_files listing).Sorted nameLE ∧
    (find_ttl_files listing).Perm (listing.filter (fun f => matchesTtlGlob f.name)) ∧
    ∀ f ∈ find_ttl_files listing, matchesTtlGlob f.name = true :=
  ⟨find_ttl_files_sorted listing, find_ttl_files_perm listing,
    fun _ hf => find_ttl_files_matches listing hf⟩

/-- C7: when zero input files are discovered, the run exits with status 1
before any per-file processing or index generation: no per-file result is
recorded and the output directory receives no content. -/
theorem claim7_zero_files (env : Env) (listing : List InputFile)
    (h : find_ttl_files listing = []) :
    main env listing =
      { fs := [], results := [], success_count := 0, aborted := false, exitCode := 1 } :=
  main_of_empty env listing h

/-- Witness for C7 at a concrete run: a listing with no `.ttl` file. -/
theorem claim7_zero_files_witness :
    main envAllOk listingNoTtl =
      { fs := [], results := [], success_count := 0, aborted := false, exitCode := 1 } :=
  claim7_zero_files envAllOk listingNoTtl (by decide)

/-- C8: a failure raised in the index-building step is caught nowhere: the
run aborts with exit status 1, after the per-file loop has already recorded
one result for every discovered file and with no extra per-file result for
the index step itself. -/
theorem claim8_index_failure_aborts (env : Env) (listing : List InputFile)
    (hne : find_ttl_files listing ≠ []) (hidx : env.indexOk = false) :
    (main env listing).aborted = true ∧ (main env listing).exitCode = 1 ∧
    (main env listing).results = (find_ttl_files listing).map (fileOutcome env) := by
  rw [main_eq_abort env listing hne hidx]
  exact ⟨rfl, rfl, processAll_snd env [] _⟩

/-- Witness for C8 at a concrete run: one input `a.ttl`, index write raises. -/
theorem claim8_index_failure_witness :
    (main envIndexRaises listingA).aborted = true ∧
    (main envIndexRaises listingA).exitCode = 1 ∧
    (main envIndexRaises listingA).results
      = (find_ttl_files listingA).map (fileOutcome envIndexRaises) :=
  claim8_index_failure_aborts envIndexRaises listingA (by decide) rfl

/-- C9: the index content written by a completed run is the deterministic
function `generate_index_content` of the sorted list of discovered filenames,
so its entries appear in discovery (lexicographically sorted) order, and two
runs over the same listing produce identical index content whatever their
per-file successes and failures were. -/
theorem claim9_index_order_deterministic (env env2 : Env) (listing : List InputFile)
    (hne : find_ttl_files listing ≠ []) (hidx : env.indexOk = true)
    (hidx2 : env2.indexOk = true) :
    (fsGet (main env listing).fs "index.html").map FileData.content
      = some (generate_index_content ((find_ttl_files listing).map InputFile.name))
    ∧ (fsGet (main env2 listing).fs "index.html").map FileData.content
      = (fsGet (main env listing).fs "index.html").map FileData.content
    ∧ ((find_ttl_files listing).map InputFile.name).Sorted (fun a b => a ≤ b) := by
  have h1 : (fsGet (main env listing).fs "index.html").map FileData.content
      = some (generate_index_content ((find_ttl_files listing).map InputFile.name)) := by
    rw [main_eq_write env listing hne hidx, fsGet_fsWrite_self]
    rfl
  have h2 : (fsGet (main env2 listing).fs "index.html").map FileData.content
      = some (generate_index_content ((find_ttl_files listing).map InputFile.name)) := by
    rw [main_eq_write env2 listing hne hidx2, fsGet_fsWrite_self]
    rfl
  refine ⟨h1, by rw [h1, h2], ?_⟩
  exact List.Pairwise.map InputFile.name (fun a b h => h) (find_ttl_files_sorted listing)

/-- Witness for C9 at a concrete run: one input `a.ttl`; the two environments
differ in per-file outcomes (all-success versus all-copy-failures). -/
theorem claim9_index_order_witness :
    (fsGet (main envAllOk listingA).fs "index.html").map FileData.content
      = some (generate_index_content ((find_ttl_files listingA).map InputFile.name))
    ∧ (fsGet (main envCopyRaises listingA).fs "index.html").map FileData.content
      = (fsGet (main envAllOk listingA).fs "index.html").map FileData.content
    ∧ ((find_ttl_files listingA).map InputFile.name).Sorted (fun a b => a ≤ b) :=
  claim9_index_order_deterministic envAllOk envCopyRaises listingA (by decide) rfl rfl

/-- C10: a discovered input file named `index.ttl` has its rendered HTML
artifact path equal to `index.html`; that path is occupied after the per-file
loop (the artifact was written), and at the end of a completed run the file
at `index.html` is the generated index page, which is written last to the
same fixed path and so overwrites the rendered artifact. -/
theorem claim10_index_stem_overwritten (env : Env) (listing : List InputFile)
    {f : InputFile} (hmem : f ∈ find_ttl_files listing) (hname : f.name = "index.ttl")
    (hr : env.renderOk f.name = true) (hidx : env.indexOk = true) :
    htmlArtifact f.name = "index.html"
    ∧ fsGet (processAll env [] (find_ttl_files listing)).1 "index.html" ≠ none
    ∧ fsGet (main env listing).fs "index.html"
        = some ⟨generate_index_content ((find_ttl_files listing).map InputFile.name),
            env.indexMtime⟩ := by
  have hne : find_ttl_files listing ≠ [] := List.ne_nil_of_mem hmem
  have h1 : htmlArtifact f.name = "index.html" := by rw [hname]; decide
  refine ⟨h1, ?_, ?_⟩
  · have hh := processAll_fsGet_html env [] _ hmem hr
    rwa [h1] at hh
  · rw [main_eq_write env listing hne hidx]
    exact fsGet_fsWrite_self _ _ _

/-- Witness for C10 at a concrete run: the single input `index.ttl`, all
calls succeed. -/
theorem claim10_index_stem_witness :
    htmlArtifact fileIdx.name = "index.html"
    ∧ fsGet (processAll envAllOk [] (find_ttl_files listingIdx)).1 "index.html" ≠ none
    ∧ fsGet (main envAllOk listingIdx).fs "index.html"
        = some ⟨generate_index_content ((find_ttl_files listingIdx).map InputFile.name),
            envAllOk.indexMtime⟩ :=
  claim10_index_stem_overwritten envAllOk listingIdx (by decide) rfl rfl rfl

end GenerateDocs
